import Mathlib

/-!
Verification of the entity-resolution core of the `elyris` backend.

The definitions below are a shallow embedding of the Python sources:
  * `backend/app/services/smart_query.py`  (entity resolution, review queue)
  * `backend/app/services/llm_parser.py`   (extraction validation, assist contract)
  * `backend/app/services/document_parser.py` (heuristic text segmentation)
  * `backend/app/models.py`                (record types)

Modelling conventions:
  * Python dicts are association lists with Python's insertion-order and
    overwrite-in-place semantics (`dictGet` / `dictSet`).
  * `str(uuid.uuid4())` identifiers are modelled as identifiers drawn freshly
    from a counter carried in the database state; only their freshness is used.
  * The SQLite persistence layer is modelled at its query interface: a select
    with where-clauses is a list filter.  A `Date` column is stored by the
    SQLite backend as its ISO text `YYYY-MM-DD`; a raw string bound in a
    where-clause is compared against that text, and a NULL column never
    satisfies an equality clause.
  * The sentence-transformers embedding backend is an optional oracle
    (`Option Embedder`); `none` models the dependency being unavailable,
    which per `smart_query.py:194` and `smart_query.py:338` yields zero
    semantic candidates.  Similarity scores are rationals (threshold 0.75).
  * `datetime.now(timezone.utc)` timestamps are abstract ticks (`Nat`)
    supplied by the caller.
-/

/-! ## Python string primitives (ASCII-faithful) -/

/-- Python `str.strip()`: remove leading and trailing whitespace. -/
def pyStrip (s : String) : String :=
  ⟨((s.data.dropWhile Char.isWhitespace).reverse.dropWhile Char.isWhitespace).reverse⟩

/-- Python `str.lower()` (ASCII range; all strings in the claims are ASCII). -/
def pyLower (s : String) : String :=
  ⟨s.data.map Char.toLower⟩

/-- Python substring containment over char lists: `a in b`. -/
def pyInChars (a : List Char) : List Char → Bool
  | [] => a.isEmpty
  | c :: cs => a.isPrefixOf (c :: cs) || pyInChars a cs

/-- Python `a in b` on strings. -/
def pyIn (a b : String) : Bool :=
  pyInChars a.data b.data

/-- Python `s.startswith(p)`. -/
def pyStartsWith (s p : String) : Bool :=
  p.data.isPrefixOf s.data

/-- Python `s.split('\n')` (keeps empty pieces, `"" → [""]`). -/
def splitLines : List Char → List (List Char)
  | [] => [[]]
  | c :: cs =>
    if c = '\n' then [] :: splitLines cs
    else
      match splitLines cs with
      | l :: ls => (c :: l) :: ls
      | [] => [[c]]

/-- Lines of a document text: `text.strip().split('\n')`. -/
def pyLines (text : String) : List String :=
  (splitLines (pyStrip text).data).map (fun l => ⟨l⟩)

/-- Python `'\n'.join(xs)`. -/
def joinNL : List String → String
  | [] => ""
  | [s] => s
  | s :: rest => s ++ "\n" ++ joinNL rest

/-- Python `' '.join(xs)`. -/
def joinSpace : List String → String
  | [] => ""
  | [s] => s
  | s :: rest => s ++ " " ++ joinSpace rest

/-- Python `s.replace(' ', '')`: delete every space. -/
def stripSpace (s : String) : String :=
  ⟨s.data.filter (fun c => ¬ c = ' ')⟩

/-- Python `s.replace(' ', '').replace('-', '')`: delete spaces, then hyphens. -/
def stripSpaceHyphen (s : String) : String :=
  ⟨(s.data.filter (fun c => ¬ c = ' ')).filter (fun c => ¬ c = '-')⟩

/-- Split on single whitespace characters, keeping empty pieces. -/
def splitWsAux : List Char → List (List Char)
  | [] => [[]]
  | c :: cs =>
    if c.isWhitespace then [] :: splitWsAux cs
    else
      match splitWsAux cs with
      | l :: ls => (c :: l) :: ls
      | [] => [[c]]

/-- Python `s.split()` (no argument): split on whitespace runs, drop empties. -/
def pySplitWs (s : String) : List String :=
  ((splitWsAux s.data).filter (fun l => ¬ l.isEmpty)).map (fun l => ⟨l⟩)

/-! ## Python dict primitives -/

/-- Python `d.get(k)` / `d[k]`: value of the (unique) key, if present. -/
def dictGet {α : Type} : List (String × α) → String → Option α
  | [], _ => none
  | (k', v) :: rest, k => if k' = k then some v else dictGet rest k

/-- Python `d[k] = v`: replace in place if the key exists, else append. -/
def dictSet {α : Type} : List (String × α) → String → α → List (String × α)
  | [], k, v => [(k, v)]
  | (k', v') :: rest, k, v =>
    if k' = k then (k', v) :: rest else (k', v') :: dictSet rest k v

/-- Truthiness of a Python string-or-None value (`None` and `""` are falsy). -/
def truthyStr : Option String → Bool
  | none => false
  | some s => ¬ s = ""

/-! ## Dates (`smart_query._parse_date`, `datetime.strptime`) -/

/-- A Python `datetime.date`. -/
structure PyDate where
  year : Nat
  month : Nat
  day : Nat
deriving DecidableEq, Repr

/-- Value of an ASCII digit. -/
def digitVal (c : Char) : Nat := c.toNat - '0'.toNat

/-- `strptime` field `%Y`: exactly four digits. -/
def parseYear4 : List Char → Option (Nat × List Char)
  | a :: b :: c :: d :: rest =>
    if a.isDigit ∧ b.isDigit ∧ c.isDigit ∧ d.isDigit then
      some (digitVal a * 1000 + digitVal b * 100 + digitVal c * 10 + digitVal d, rest)
    else none
  | _ => none

/-- `strptime` field `%m`: the regex `1[0-2]|0[1-9]|[1-9]`, alternatives in order. -/
def parseMonthField : List Char → Option (Nat × List Char)
  | '1' :: c :: rest =>
    if '0' ≤ c ∧ c ≤ '2' then some (10 + digitVal c, rest)
    else some (1, c :: rest)
  | '0' :: c :: rest =>
    if '1' ≤ c ∧ c ≤ '9' then some (digitVal c, rest) else none
  | c :: rest =>
    if '1' ≤ c ∧ c ≤ '9' then some (digitVal c, rest) else none
  | [] => none

/-- `strptime` field `%d`: the regex `3[01]|[12]\d|0[1-9]|[1-9]`, alternatives in order. -/
def parseDayField : List Char → Option (Nat × List Char)
  | '3' :: c :: rest =>
    if c = '0' ∨ c = '1' then some (30 + digitVal c, rest)
    else some (3, c :: rest)
  | '0' :: c :: rest =>
    if '1' ≤ c ∧ c ≤ '9' then some (digitVal c, rest) else none
  | c₁ :: c :: rest =>
    if (c₁ = '1' ∨ c₁ = '2') ∧ c.isDigit then some (digitVal c₁ * 10 + digitVal c, rest)
    else if '1' ≤ c₁ ∧ c₁ ≤ '9' then some (digitVal c₁, c :: rest)
    else none
  | [c] => if '1' ≤ c ∧ c ≤ '9' then some (digitVal c, []) else none
  | [] => none

/-- Gregorian month length, as validated by `datetime.date`. -/
def daysInMonth (y m : Nat) : Nat :=
  if m = 2 then (if (y % 4 = 0 ∧ ¬ y % 100 = 0) ∨ y % 400 = 0 then 29 else 28)
  else if m = 4 ∨ m = 6 ∨ m = 9 ∨ m = 11 then 30 else 31

/-- `datetime.date(y, m, d)` construction (raises, i.e. `none`, out of range). -/
def mkValidDate (y m d : Nat) : Option PyDate :=
  if 1 ≤ y ∧ 1 ≤ d ∧ d ≤ daysInMonth y m then some ⟨y, m, d⟩ else none

/-- `datetime.strptime(s, '%Y-%m-%d').date()`; the whole string must be consumed. -/
def parseDateISO (s : String) : Option PyDate :=
  match parseYear4 s.data with
  | some (y, '-' :: r1) =>
    match parseMonthField r1 with
    | some (m, '-' :: r2) =>
      match parseDayField r2 with
      | some (d, []) => mkValidDate y m d
      | _ => none
    | _ => none
  | _ => none

/-- `datetime.strptime(s, '%m/%d/%Y').date()`; the whole string must be consumed. -/
def parseDateUS (s : String) : Option PyDate :=
  match parseMonthField s.data with
  | some (m, '/' :: r1) =>
    match parseDayField r1 with
    | some (d, '/' :: r2) =>
      match parseYear4 r2 with
      | some (y, []) => mkValidDate y m d
      | _ => none
    | _ => none
  | _ => none

/-- String branch of `smart_query._parse_date` (smart_query.py:31-41):
try `YYYY-MM-DD`, then `MM/DD/YYYY`, else `None` (a warning is logged,
no exception escapes). -/
def parse_date_str (s : String) : Option PyDate :=
  match parseDateISO s with
  | some d => some d
  | none => parseDateUS s

/-- `smart_query._parse_date` applied to `data.get('dob')`.  After Step-0
normalization every value is a string, so only the `None` and `str` branches
of the source function are reachable. -/
def parse_date : Option String → Option PyDate
  | none => none
  | some s => parse_date_str s

/-- Zero-padded decimal rendering helpers for the ISO date text. -/
def pad2 (n : Nat) : String := if n < 10 then "0" ++ toString n else toString n

def pad4 (n : Nat) : String :=
  if n < 10 then "000" ++ toString n
  else if n < 100 then "00" ++ toString n
  else if n < 1000 then "0" ++ toString n
  else toString n

/-- The ISO text `YYYY-MM-DD` under which SQLite stores a `Date` column. -/
def isoDate (d : PyDate) : String :=
  pad4 d.year ++ "-" ++ pad2 d.month ++ "-" ++ pad2 d.day

/-! ## Data model (`models.py`) -/

/-- `models.Person` (fields consulted by the resolution core; `legal_flags`
and `created_at` are never read by it and are omitted). -/
structure Person where
  id : String
  first_name : String
  last_name : String
  dob : Option PyDate
deriving DecidableEq, Repr

/-- `models.Location` (fields consulted by the resolution core; `country`,
`global_position_id`, `phone`, `email`, `website` and the timestamps are
never read by it and are omitted). -/
structure Location where
  id : String
  name : String
  address : Option String
  city : Option String
  state : Option String
  zip : Option String
deriving DecidableEq, Repr

/-- A ranked candidate stored on a review item: entity id and similarity
score (the display fields duplicated into the JSON blob carry no further
information used by any operation). -/
abbrev Candidate := String × ℚ

/-- `models.ReviewQueueItem`. -/
structure ReviewQueueItem where
  id : String
  document_parse_id : String
  entity_type : String
  query_type : String
  candidate_matches : Option (List Candidate)
  raw_data : List (String × String)
  status : String
  resolved_entity_id : Option String
  reviewed_by : Option String
  reviewed_at : Option Nat
deriving DecidableEq, Repr

/-- The backing store visible to `SmartQueryService`, plus the fresh-id
counter modelling `uuid.uuid4()`. -/
structure DB where
  persons : List Person
  locations : List Location
  reviews : List ReviewQueueItem
  nextId : Nat
deriving DecidableEq, Repr

def emptyDB : DB := ⟨[], [], [], 0⟩

/-- A fresh `str(uuid.uuid4())`. -/
def freshId (n : Nat) : String := "uuid-" ++ toString n

/-! ## `SmartQueryService._normalize_data` (smart_query.py:85-118) -/

/-- A Python value as it appears in a parsed field mapping. -/
inductive PyVal where
  | str (s : String)
  | dict (m : List (String × PyVal))
  | other

/-- Flatten one nested dict into the accumulator (inner loop of
`_normalize_data`; only string-valued nested entries are kept). -/
def normalizeNested (acc : List (String × String)) : List (String × PyVal) → List (String × String)
  | [] => acc
  | (nk, PyVal.str nv) :: rest =>
    if nk = "street_address" then normalizeNested (dictSet acc "address" nv) rest
    else normalizeNested (dictSet acc nk nv) rest
  | _ :: rest => normalizeNested acc rest

/-- Main loop of `_normalize_data` over the items of the input dict. -/
def normalizeGo (acc : List (String × String)) : List (String × PyVal) → List (String × String)
  | [] => acc
  | (_, PyVal.dict m) :: rest => normalizeGo (normalizeNested acc m) rest
  | (k, PyVal.str v) :: rest =>
    if k = "street_address" then normalizeGo (dictSet acc "address" v) rest
    else if k = "organization_name" then normalizeGo (dictSet acc "name" v) rest
    else normalizeGo (dictSet acc k v) rest
  | (_, PyVal.other) :: rest => normalizeGo acc rest

/-- `SmartQueryService._normalize_data`: flatten nested dicts, rename
`street_address → address` and `organization_name → name`, drop values that
are neither strings nor dicts. -/
def normalize_data (data : List (String × PyVal)) : List (String × String) :=
  normalizeGo [] data

/-! ## Deterministic tier (smart_query.py:153-184, 294-328) -/

/-- Where-clause `Person.dob == data['dob']`: the stored date's ISO text
against the raw string; a NULL column never satisfies the clause. -/
def dobColumnEq (dob : Option PyDate) (s : String) : Bool :=
  match dob with
  | none => false
  | some d => isoDate d = s

/-- Rows returned by the deterministic person query: case-insensitive
equality on both names, plus the dob clause when `'dob' in data and
data['dob']` (smart_query.py:166-178). -/
def person_det_rows (db : DB) (data : List (String × String)) (fn ln : String) : List Person :=
  let base := db.persons.filter (fun q =>
    pyLower q.first_name = pyLower fn ∧ pyLower q.last_name = pyLower ln)
  match dictGet data "dob" with
  | some dobStr => if dobStr ≠ "" then base.filter (fun q => dobColumnEq q.dob dobStr) else base
  | none => base

/-- `SmartQueryService.match_person_deterministic`: requires both name keys,
and accepts the result only when exactly one row qualifies. -/
def match_person_deterministic (db : DB) (data : List (String × String)) : Option Person :=
  match dictGet data "first_name", dictGet data "last_name" with
  | some fn, some ln =>
    match person_det_rows db data fn ln with
    | [p] => some p
    | _ => none
  | _, _ => none

/-- `SmartQueryService.match_location_deterministic`: address+zip clause
first; on no unique hit fall through to the `organization_name`+city+state
clause; accept only a unique row in either clause (smart_query.py:294-328). -/
def match_location_deterministic (db : DB) (data : List (String × String)) : Option Location :=
  let byAddr : Option Location :=
    match dictGet data "address", dictGet data "zip" with
    | some a, some z =>
      match db.locations.filter (fun l => l.address = some a ∧ l.zip = some z) with
      | [l] => some l
      | _ => none
    | _, _ => none
  match byAddr with
  | some l => some l
  | none =>
    match dictGet data "organization_name", dictGet data "city", dictGet data "state" with
    | some n, some c, some st =>
      match db.locations.filter (fun l => l.name = n ∧ l.city = some c ∧ l.state = some st) with
      | [l] => some l
      | _ => none
    | _, _, _ => none

/-! ## Semantic tier (smart_query.py:186-228, 330-384) -/

/-- The optional embedding backend: `none` models sentence-transformers or
numpy being unavailable.  A `some` backend is the composite
`cosine_similarity(encode a, encode b)` oracle. -/
abbrev Embedder := String → String → ℚ

/-- `self.similarity_threshold = 0.75`. -/
def similarity_threshold : ℚ := 3 / 4

/-- Stable descending sort by similarity
(`matches.sort(key=lambda x: x[1], reverse=True)`). -/
def insertDesc {α : Type} (x : α × ℚ) : List (α × ℚ) → List (α × ℚ)
  | [] => [x]
  | y :: ys => if y.2 < x.2 then x :: y :: ys else y :: insertDesc x ys

def sortBySimDesc {α : Type} : List (α × ℚ) → List (α × ℚ)
  | [] => []
  | x :: xs => insertDesc x (sortBySimDesc xs)

/-- `SmartQueryService.match_person_semantic`. -/
def match_person_semantic (emb : Option Embedder) (db : DB)
    (data : List (String × String)) : List (Person × ℚ) :=
  match emb with
  | none => []
  | some sim =>
    let search_parts :=
      (match dictGet data "first_name" with | some v => [v] | none => []) ++
      (match dictGet data "last_name" with | some v => [v] | none => [])
    if search_parts.isEmpty then []
    else
      let search_text := joinSpace search_parts
      let found := db.persons.filterMap (fun p =>
        let person_text := p.first_name ++ " " ++ p.last_name
        let s := sim search_text person_text
        if similarity_threshold ≤ s then some (p, s) else none)
      sortBySimDesc found

/-- `SmartQueryService.match_location_semantic`.  Note: the search string
consults the `organization_name` key, and each row contributes its optional
fields only when truthy. -/
def match_location_semantic (emb : Option Embedder) (db : DB)
    (data : List (String × String)) : List (Location × ℚ) :=
  match emb with
  | none => []
  | some sim =>
    let search_parts :=
      (match dictGet data "organization_name" with | some v => [v] | none => []) ++
      (match dictGet data "address" with | some v => [v] | none => []) ++
      (match dictGet data "city" with | some v => [v] | none => []) ++
      (match dictGet data "state" with | some v => [v] | none => [])
    if search_parts.isEmpty then []
    else
      let search_text := joinSpace search_parts
      let found := db.locations.filterMap (fun l =>
        let location_parts := [l.name] ++
          (match l.address with | some a => if a ≠ "" then [a] else [] | none => []) ++
          (match l.city with | some c => if c ≠ "" then [c] else [] | none => []) ++
          (match l.state with | some st => if st ≠ "" then [st] else [] | none => [])
        let location_text := joinSpace location_parts
        let s := sim search_text location_text
        if similarity_threshold ≤ s then some (l, s) else none)
      sortBySimDesc found

/-! ## Queuing and the main entry points (smart_query.py:230-290, 386-459) -/

/-- `SmartQueryService._queue_for_review`: one new `ReviewQueueItem` in
"pending" status; an empty candidate list is stored as NULL. -/
def queue_for_review (db : DB) (document_parse_id entity_type query_type : String)
    (raw_data : List (String × String)) (candidates : List Candidate) : DB :=
  let item : ReviewQueueItem :=
    { id := freshId db.nextId
      document_parse_id := document_parse_id
      entity_type := entity_type
      query_type := query_type
      candidate_matches := if candidates.isEmpty then none else some candidates
      raw_data := raw_data
      status := "pending"
      resolved_entity_id := none
      reviewed_by := none
      reviewed_at := none }
  { db with reviews := db.reviews ++ [item], nextId := db.nextId + 1 }

/-- `SmartQueryService.match_person`: normalize, deterministic tier,
semantic tier; on zero candidates create a new `Person` when both names are
truthy, else queue "no_results"; on two-plus candidates queue
"multiple_results" with the top five. -/
def match_person (emb : Option Embedder) (dataRaw : List (String × PyVal))
    (document_parse_id : String) (db : DB) : Option String × DB :=
  let data := normalize_data dataRaw
  match match_person_deterministic db data with
  | some person => (some person.id, db)
  | none =>
    match match_person_semantic emb db data with
    | [(p, _)] => (some p.id, db)
    | [] =>
      match dictGet data "first_name", dictGet data "last_name" with
      | some fn, some ln =>
        if fn ≠ "" ∧ ln ≠ "" then
          let newP : Person :=
            { id := freshId db.nextId, first_name := fn, last_name := ln
              dob := parse_date (dictGet data "dob") }
          (some newP.id, { db with persons := db.persons ++ [newP], nextId := db.nextId + 1 })
        else
          (none, queue_for_review db document_parse_id "person" "no_results" data [])
      | _, _ =>
        (none, queue_for_review db document_parse_id "person" "no_results" data [])
    | ms =>
      (none, queue_for_review db document_parse_id "person" "multiple_results" data
        ((ms.take 5).map (fun pr => (pr.1.id, pr.2))))

/-- `SmartQueryService.match_location`: normalize, deterministic tier,
semantic tier; zero candidates always queue "no_results" (no auto-create);
two-plus candidates queue "multiple_results" with the top five. -/
def match_location (emb : Option Embedder) (dataRaw : List (String × PyVal))
    (document_parse_id : String) (db : DB) : Option String × DB :=
  let data := normalize_data dataRaw
  match match_location_deterministic db data with
  | some location => (some location.id, db)
  | none =>
    match match_location_semantic emb db data with
    | [(l, _)] => (some l.id, db)
    | [] =>
      (none, queue_for_review db document_parse_id "location" "no_results" data [])
    | ms =>
      (none, queue_for_review db document_parse_id "location" "multiple_results" data
        ((ms.take 5).map (fun pr => (pr.1.id, pr.2))))

/-! ## Review resolution (smart_query.py:467-519) -/

/-- `session.get(ReviewQueueItem, review_id)`: primary-key lookup. -/
def findReview (db : DB) (review_id : String) : Option ReviewQueueItem :=
  db.reviews.find? (fun r => r.id = review_id)

/-- Truthiness of the optional `new_entity_data` kwargs dict
(`None` and `{}` are falsy). -/
def truthyDict : Option (List (String × String)) → Bool
  | none => false
  | some d => ¬ d.isEmpty

/-- `Person(**new_entity_data)`.  With `table=True` SQLModel performs no
validation or coercion; the name fields are read from the kwargs (no claim
depends on further kwargs handling, and a kwargs `dob` is stored raw by the
source, which the model records as absent). -/
def personFromKwargs (id : String) (d : List (String × String)) : Person :=
  { id := id
    first_name := (dictGet d "first_name").getD ""
    last_name := (dictGet d "last_name").getD ""
    dob := none }

/-- `Location(**new_entity_data)` under the same kwargs conventions. -/
def locationFromKwargs (id : String) (d : List (String × String)) : Location :=
  { id := id
    name := (dictGet d "name").getD ""
    address := dictGet d "address"
    city := dictGet d "city"
    state := dictGet d "state"
    zip := dictGet d "zip" }

/-- `SmartQueryService.resolve_review`: raises `ValueError` when the item is
missing; optionally creates a new entity of the item's declared kind; then
unconditionally marks the item "resolved", stamping resolver identity,
timestamp and the final entity id.  The source performs no status check. -/
def resolve_review (db : DB) (review_id : String) (resolved_entity_id : Option String)
    (reviewed_by : String) (create_new : Bool)
    (new_entity_data : Option (List (String × String))) (now : Nat) :
    Except String (Option String × DB) :=
  match findReview db review_id with
  | none => .error ("ValueError: Review item " ++ review_id ++ " not found")
  | some review_item =>
    let step :=
      if create_new && truthyDict new_entity_data then
        if review_item.entity_type = "person" then
          let p := personFromKwargs (freshId db.nextId) ((new_entity_data).getD [])
          (some p.id, { db with persons := db.persons ++ [p], nextId := db.nextId + 1 })
        else if review_item.entity_type = "location" then
          let l := locationFromKwargs (freshId db.nextId) ((new_entity_data).getD [])
          (some l.id, { db with locations := db.locations ++ [l], nextId := db.nextId + 1 })
        else (resolved_entity_id, db)
      else (resolved_entity_id, db)
    let entity_id := step.1
    let db1 := step.2
    let item' : ReviewQueueItem :=
      { review_item with
        status := "resolved"
        resolved_entity_id := entity_id
        reviewed_by := some reviewed_by
        reviewed_at := some now }
    .ok (entity_id,
      { db1 with reviews := db1.reviews.map (fun r => if r.id = review_id then item' else r) })

/-! ## Extraction validation (`LLMDocumentParser._validate_extraction`,
llm_parser.py:256-299) -/

/-- Keys requiring verbatim support in the source. -/
def addrKeys : List String := ["address", "zip", "phone", "email"]

/-- Keys validated leniently by word tokens. -/
def nameKeys : List String :=
  ["first_name", "last_name", "city", "state", "organization_name", "department", "name"]

/-- One iteration of the validation loop: `None` values are skipped; a zip
passes on space/hyphen-normalized containment, otherwise address-class keys
need (space-normalized) verbatim containment; name-class keys need one word
token longer than two characters in the source; other keys pass through. -/
def validateStep (source_lower : String) (validated : List (String × String))
    (key : String) (value? : Option String) : List (String × String) :=
  match value? with
  | none => validated
  | some value =>
    let value_lower := pyLower value
    if key ∈ addrKeys then
      if key = "zip" &&
          pyIn (stripSpaceHyphen value_lower) (stripSpaceHyphen source_lower) then
        dictSet validated key value
      else if pyIn value_lower source_lower ||
          pyIn (stripSpace value_lower) (stripSpace source_lower) then
        dictSet validated key value
      else validated
    else if key ∈ nameKeys then
      if (pySplitWs value_lower).any (fun part => 2 < part.length && pyIn part source_lower) then
        dictSet validated key value
      else validated
    else dictSet validated key value

/-- `LLMDocumentParser._validate_extraction`: drop every field whose value is
not supported by the source block text. -/
def validate_extraction (result : List (String × Option String)) (source_text : String) :
    List (String × String) :=
  result.foldl (fun validated kv => validateStep (pyLower source_text) validated kv.1 kv.2) []

/-! ## Heuristic segmentation (`DocumentParser.parse_document_blocks`,
document_parser.py:205-410) -/

/-- `[a-z]` under `re.IGNORECASE`. -/
def isLetterI (c : Char) : Bool := ('a' ≤ c ∧ c ≤ 'z') ∨ ('A' ≤ c ∧ c ≤ 'Z')

/-- Remainder after the greeting alternation `(hi|hello|hey)`,
case-insensitively; the alternatives have pairwise distinct prefixes, so
first-match order coincides with regex alternation order. -/
def greetingDrop (cs : List Char) : Option (List Char) :=
  if (cs.take 2).map Char.toLower = ['h', 'i'] then some (cs.drop 2)
  else if (cs.take 5).map Char.toLower = ['h', 'e', 'l', 'l', 'o'] then some (cs.drop 5)
  else if (cs.take 3).map Char.toLower = ['h', 'e', 'y'] then some (cs.drop 3)
  else none

/-- `re.match(r'^(hi|hello|hey)\s+([a-z]+(\s+[a-z]+)?)[,:]', line, re.IGNORECASE)`
as a Boolean (document_parser.py:241).  Maximal-munch is exact here: the
character classes meeting at each boundary are disjoint, so a shortened run
can never complete the match. -/
def salutation1 (cs : List Char) : Bool :=
  match greetingDrop cs with
  | none => false
  | some r1 =>
    let w := r1.takeWhile Char.isWhitespace
    let r2 := r1.drop w.length
    let a := r2.takeWhile isLetterI
    let r3 := r2.drop a.length
    if w.isEmpty || a.isEmpty then false
    else
      (match r3 with
       | c :: _ => c = ',' ∨ c = ':'
       | [] => false)
      ||
      (let w2 := r3.takeWhile Char.isWhitespace
       let r4 := r3.drop w2.length
       let b := r4.takeWhile isLetterI
       let r5 := r4.drop b.length
       if w2.isEmpty || b.isEmpty then false
       else
         match r5 with
         | c :: _ => c = ',' ∨ c = ':'
         | [] => false)

/-- `group(2)` of `re.match(r'^(hi|hello|hey)\s+([a-z\s]+)[,:]', line,
re.IGNORECASE)` (document_parser.py:243): the maximal `[a-z\s]` run after the
greeting must start with whitespace and be followed by `,` or `:`; the greedy
`\s+` takes the whitespace prefix, backing off one character when the run is
all whitespace so the group keeps at least one character. -/
def salutation2Group (cs : List Char) : Option (List Char) :=
  match greetingDrop cs with
  | none => none
  | some r1 =>
    let R := r1.takeWhile (fun c => Char.isWhitespace c || isLetterI c)
    let rest := r1.drop R.length
    let okStart := match r1 with
      | c :: _ => Char.isWhitespace c
      | [] => false
    let okEnd := match rest with
      | c :: _ => c = ',' ∨ c = ':'
      | [] => false
    if ¬ (okStart && okEnd) then none
    else
      let W := R.takeWhile Char.isWhitespace
      if W.length < R.length then some (R.drop W.length)
      else if 2 ≤ R.length then some (R.drop (R.length - 1))
      else none

/-- Match of `\(\d{3}\)\s*\d{3}[-\s]*\d{4}` anchored at the head of the list
(maximal-munch on the `\s*` and `[-\s]*` runs is exact: a shortened run puts
a non-digit where a digit is required). -/
def phoneSigAt : List Char → Bool
  | '(' :: d1 :: d2 :: d3 :: ')' :: rest =>
    if d1.isDigit ∧ d2.isDigit ∧ d3.isDigit then
      let r1 := rest.drop (rest.takeWhile Char.isWhitespace).length
      match r1 with
      | e1 :: e2 :: e3 :: r2 =>
        if e1.isDigit ∧ e2.isDigit ∧ e3.isDigit then
          let r3 := r2.drop (r2.takeWhile (fun c => c = '-' || Char.isWhitespace c)).length
          match r3 with
          | f1 :: f2 :: f3 :: f4 :: _ =>
            f1.isDigit ∧ f2.isDigit ∧ f3.isDigit ∧ f4.isDigit
          | _ => false
        else false
      | _ => false
    else false
  | _ => false

def anySuffix (p : List Char → Bool) : List Char → Bool
  | [] => p []
  | c :: cs => p (c :: cs) || anySuffix p cs

/-- `re.search(r'\(\d{3}\)\s*\d{3}[-\s]*\d{4}', s)` as a Boolean
(document_parser.py:254). -/
def phoneSigSearch (s : String) : Bool := anySuffix phoneSigAt s.data

/-- Closing phrases searched for above a signature (document_parser.py:262). -/
def closingPhrases : List String := ["thank you", "thanks", "sincerely", "best", "regards"]

/-- Body-text indicators excluded from a signature block (document_parser.py:271). -/
def bodyWords : List String := ["proposed", "details", "reply to this", "services below"]

/-- Next-section keywords ending a receipt recipient block (document_parser.py:349). -/
def receiptSectionKeywords : List String :=
  ["account information", "transaction", "payment", "summary"]

def hasClosingPhrase (l : String) : Bool :=
  closingPhrases.any (fun p => pyIn p (pyLower (pyStrip l)))

def hasBodyWord (l : String) : Bool :=
  bodyWords.any (fun w => pyIn w (pyLower l))

/-- Scan the enumerated first lines for the salutation (document_parser.py:238-246):
a line passing the first regex yields the quote branch only when the second
regex also matches; otherwise scanning continues. -/
def findQuoteSalutation : List (Nat × String) → Option (Nat × String)
  | [] => none
  | (i, line) :: rest =>
    let ls := (pyStrip line).data
    if salutation1 ls then
      match salutation2Group ls with
      | some g => some (i, pyStrip ⟨g⟩)
      | none => findQuoteSalutation rest
    else findQuoteSalutation rest

/-- First index whose stripped line holds an email or phone-shaped token
(document_parser.py:251-254). -/
def findSigIdx (lines : List String) : List Nat → Option Nat
  | [] => none
  | j :: rest =>
    let sig := pyStrip (lines.getD j "")
    if sig.data.contains '@' || phoneSigSearch sig then some j
    else findSigIdx lines rest

/-- First index (walking the given order) whose line holds a closing phrase
(document_parser.py:260-264). -/
def findClosingIdx (lines : List String) : List Nat → Option Nat
  | [] => none
  | k :: rest =>
    if hasClosingPhrase (lines.getD k "") then some k else findClosingIdx lines rest

/-- Collect the signature block over the index range; `lines[k]` one past the
end of the list raises IndexError, as in the source (document_parser.py:267-272). -/
def collectSigLines (lines : List String) : List Nat → Except String (List String)
  | [] => .ok []
  | k :: rest =>
    match lines.get? k with
    | none => .error "IndexError: list index out of range"
    | some l =>
      let pl := pyStrip l
      match collectSigLines lines rest with
      | .error e => .error e
      | .ok tail =>
        if (¬ pl = "") && (¬ pyStartsWith pl "---") && (¬ hasBodyWord pl) then .ok (pl :: tail)
        else .ok tail

/-- First enumerated line starting with "dear " (case-insensitively). -/
def findDearIdx : List (Nat × String) → Option Nat
  | [] => none
  | (i, line) :: rest =>
    if pyStartsWith (pyLower (pyStrip line)) "dear " then some i else findDearIdx rest

/-- Backward walk collecting non-empty, non-marker lines, stopping at the
first gap after something was collected (document_parser.py:291-296). -/
def collectBackward (lines : List String) : List Nat → List String → List String
  | [], acc => acc
  | j :: rest, acc =>
    let pl := pyStrip (lines.getD j "")
    if (¬ pl = "") && (¬ pyStartsWith pl "---") then collectBackward lines rest (pl :: acc)
    else if ¬ acc.isEmpty then acc
    else collectBackward lines rest acc

/-- Backward walk of Strategy 2, which has no marker filter
(document_parser.py:383-388). -/
def collectBackwardPlain (lines : List String) : List Nat → List String → List String
  | [], acc => acc
  | j :: rest, acc =>
    let pl := pyStrip (lines.getD j "")
    if ¬ pl = "" then collectBackwardPlain lines rest (pl :: acc)
    else if ¬ acc.isEmpty then acc
    else collectBackwardPlain lines rest acc

/-- All stripped non-empty, non-marker lines over an index range
(document_parser.py:302-306). -/
def collectSenderRange (lines : List String) (ks : List Nat) : List String :=
  ks.filterMap (fun k =>
    let l := pyStrip (lines.getD k "")
    if (¬ l = "") && (¬ pyStartsWith l "---") then some l else none)

/-- Collect stripped non-empty, non-marker lines, stopping once `cap` lines
were gathered (document_parser.py:313-318). -/
def collectCapped : List String → Nat → List String → List String
  | [], _, acc => acc
  | l :: rest, cap, acc =>
    let s := pyStrip l
    if (¬ s = "") && (¬ pyStartsWith s "---") then
      let acc' := acc ++ [s]
      if cap ≤ acc'.length then acc' else collectCapped rest cap acc'
    else collectCapped rest cap acc

/-- Default fallback: the first five non-empty lines among the first fifteen
become the sender, the block only being emitted once five lines were found
(document_parser.py:323-332). -/
def firstFiveBlock : List (Nat × String) → List String → Option (List String × Nat)
  | [], _ => none
  | (i, line) :: rest, acc =>
    let s := pyStrip line
    if (¬ s = "") && (¬ pyStartsWith s "---") then
      let acc' := acc ++ [s]
      if 5 ≤ acc'.length then some (acc', i + 1) else firstFiveBlock rest acc'
    else firstFiveBlock rest acc

/-- First enumerated line containing a receipt header (document_parser.py:341-343). -/
def findReceiptHeaderIdx : List (Nat × String) → Option Nat
  | [] => none
  | (i, line) :: rest =>
    let ls := pyLower (pyStrip line)
    if pyIn "payer information" ls || pyIn "recipient information" ls then some i
    else findReceiptHeaderIdx rest

/-- Collect the receipt recipient block, stopping at a next-section keyword,
skipping empty lines (document_parser.py:345-351). -/
def receiptCollect (remaining : List String) : List Nat → List String
  | [] => []
  | j :: rest =>
    let next := pyStrip (remaining.getD j "")
    if ¬ next = "" then
      if receiptSectionKeywords.any (fun kw => pyIn kw (pyLower next)) then []
      else next :: receiptCollect remaining rest
    else receiptCollect remaining rest

/-- First enumerated line containing "to:" or "re:" (document_parser.py:362-364). -/
def findToReIdx : List (Nat × String) → Option Nat
  | [] => none
  | (i, line) :: rest =>
    let ls := pyLower (pyStrip line)
    if pyIn "to:" ls || pyIn "re:" ls then some i else findToReIdx rest

/-- Stripped non-empty lines over an index range (document_parser.py:366-370). -/
def collectNonEmpty (remaining : List String) (ks : List Nat) : List String :=
  ks.filterMap (fun j =>
    let next := pyStrip (remaining.getD j "")
    if ¬ next = "" then some next else none)

/-- Strategy 2: a "Dear " line inside the remaining lines, taking the
preceding address block when it has at least two lines (document_parser.py:377-396). -/
def strategyDear (remaining : List String) (sender : Option String) :
    Option String × Option String × Option Nat :=
  match findDearIdx (remaining.take 30).enum with
  | some i =>
    let temp := collectBackwardPlain remaining (List.range' 0 i).reverse []
    if 2 ≤ temp.length then (sender, some (joinNL temp), some (i + 1))
    else (sender, none, some i)
  | none => (sender, none, none)

/-- Strategy 1: an explicit "to:"/"re:" indicator; the scan breaks at the
first indicator whether or not lines were collected (document_parser.py:360-373). -/
def strategyToRe (remaining : List String) (sender : Option String) :
    Option String × Option String × Option Nat :=
  match findToReIdx (remaining.take 20).enum with
  | some i =>
    let block := collectNonEmpty remaining
      (List.range' (i + 1) (min (i + 6) remaining.length - (i + 1)))
    if ¬ block.isEmpty then (sender, some (joinNL block), some (i + block.length + 1))
    else strategyDear remaining sender
  | none => strategyDear remaining sender

/-- The recipient-detection strategies applied to `lines[body_start:]` when no
recipient was found earlier (document_parser.py:335-396); a receipt-style hit
discards the sender. -/
def recipientStrategies (remaining : List String) (sender : Option String) :
    Option String × Option String × Option Nat :=
  match findReceiptHeaderIdx (remaining.take 30).enum with
  | some i =>
    let block := receiptCollect remaining
      (List.range' (i + 1) (min (i + 8) remaining.length - (i + 1)))
    if ¬ block.isEmpty then (none, some (joinNL block), some (i + block.length + 1))
    else strategyToRe remaining sender
  | none => strategyToRe remaining sender

/-- Tail of `parse_document_blocks`: run the recipient strategies while the
recipient is still falsy, shift the body start by the recipient end offset
when one was set, and join the remaining lines into the body
(document_parser.py:334-403). -/
def finishBlocks (lines : List String) (sender recipient : Option String)
    (body_start : Nat) : Option String × Option String × String :=
  let step :=
    if truthyStr recipient then (sender, recipient, (none : Option Nat))
    else recipientStrategies (lines.drop body_start) sender
  let body_start' := body_start + step.2.2.getD 0
  (step.1, step.2.1, pyStrip (joinNL (lines.drop body_start')))

/-- Quote/email-format branch (document_parser.py:238-276): the captured
name is the recipient; a signature marker within fifty lines is walked back
to a closing phrase (default three lines, `max` with the salutation index
absorbing Python's negative defaults) and the block through the line after
the marker becomes the sender. -/
def quoteBranch (lines : List String) (i : Nat) (name : String) :
    Except String (Option String × Option String × String) :=
  let body_start := i + 1
  let js := List.range' (i + 1) (min (i + 50) lines.length - (i + 1))
  match findSigIdx lines js with
  | none => .ok (finishBlocks lines none (some name) body_start)
  | some j =>
    let lo := max (j - 10) i
    let ks := (List.range' (lo + 1) (j - 1 - lo)).reverse
    let sig_start := (findClosingIdx lines ks).getD (j - 3)
    let a := max sig_start i
    match collectSigLines lines (List.range' a (j + 2 - a)) with
    | .error e => .error e
    | .ok sender_lines =>
      let sender := if ¬ sender_lines.isEmpty then some (joinNL sender_lines) else none
      .ok (finishBlocks lines sender (some name) body_start)

/-- Letter-format branch for a truthy "Dear " line index
(document_parser.py:287-321). -/
def dearBranch (lines : List String) (didx : Nat) : Option String × Option String × Nat :=
  let recipient_lines := collectBackward lines (List.range' 0 didx).reverse []
  if 2 ≤ recipient_lines.length then
    let sender_end := didx - recipient_lines.length - 1
    let sender_lines := collectSenderRange lines (List.range' 0 sender_end)
    let sender := if ¬ sender_lines.isEmpty then some (joinNL sender_lines) else none
    (sender, some (joinNL recipient_lines), didx)
  else
    let sender_lines := collectCapped (lines.take didx) 5 []
    let sender := if ¬ sender_lines.isEmpty then some (joinNL sender_lines) else none
    (sender, none, didx)

/-- The heuristic path of `DocumentParser.parse_document_blocks`
(document_parser.py:227-410): quote pre-check, then letter-style detection
(`if dear_line_idx:` is falsy both for no match and for a match on line 0),
then the default first-lines fallback. -/
def heuristic_blocks (text : String) :
    Except String (Option String × Option String × String) :=
  let lines := pyLines text
  match findQuoteSalutation (lines.take 20).enum with
  | some (i, name) => quoteBranch lines i name
  | none =>
    match findDearIdx (lines.take 50).enum with
    | some (n + 1) =>
      let step := dearBranch lines (n + 1)
      .ok (finishBlocks lines step.1 step.2.1 step.2.2)
    | _ =>
      match firstFiveBlock (lines.take 15).enum [] with
      | some (block, bstart) => .ok (finishBlocks lines (some (joinNL block)) none bstart)
      | none => .ok (finishBlocks lines none none 0)

/-! ## The assist call site (document_parser.py:205-227, llm_parser.py:111-121) -/

/-- Parameters of `LLMDocumentParser.parse_document_with_llm` besides `self`
(llm_parser.py:111). -/
def parse_document_with_llm_params : List String := ["text"]

/-- Arity of the tuple the method returns (llm_parser.py:121, 186, 190). -/
def parse_document_with_llm_result_arity : Nat := 3

/-- Positional arguments passed at the call site (document_parser.py:221). -/
def llm_call_args : List String := ["text", "filename_hints"]

/-- Number of names the call site unpacks the result into
(document_parser.py:221). -/
def llm_call_unpack_arity : Nat := 4

/-- The call at document_parser.py:221 passes more positional arguments than
the method accepts; in Python this raises `TypeError` before the method body
runs. -/
def llm_call_raises : Bool :=
  decide (parse_document_with_llm_params.length < llm_call_args.length)

/-- `DocumentParser.parse_document_blocks`: with the assist enabled, the
call-site mismatch raises (the never-raising continuation is unreachable
because `llm_call_raises` is provably true); with the assist unavailable
the heuristic path runs and no document type is detected. -/
def parse_document_blocks (llm_available : Bool) (text : String) :
    Except String (Option String × Option String × String × Option String) :=
  if llm_available && llm_call_raises then
    .error "TypeError: parse_document_with_llm() takes 2 positional arguments but 3 were given"
  else
    (heuristic_blocks text).map (fun sr => (sr.1, sr.2.1, sr.2.2, none))

/-! ## Concrete instances used by the claims -/

deriving instance DecidableEq for Except

def c9Input : String :=
  "Hi Heather,\n...\nThank you,\nJames Ostlie\n(763) 200-4653\nJames.Ostlie@davey.com"

def c1Item : ReviewQueueItem :=
  { id := "r1", document_parse_id := "dp1", entity_type := "person",
    query_type := "no_results", candidate_matches := none, raw_data := [],
    status := "resolved", resolved_entity_id := some "e1",
    reviewed_by := some "alice", reviewed_at := some 100 }

def c1DB : DB := { persons := [], locations := [], reviews := [c1Item], nextId := 0 }

def c5Item : ReviewQueueItem :=
  { id := "r2", document_parse_id := "dp2", entity_type := "location",
    query_type := "no_results", candidate_matches := none, raw_data := [],
    status := "pending", resolved_entity_id := none,
    reviewed_by := none, reviewed_at := none }

def c5DB : DB := { persons := [], locations := [], reviews := [c5Item], nextId := 0 }

def c3xData : List (String × PyVal) :=
  [("first_name", PyVal.str "Spencer"), ("last_name", PyVal.str "Kennedy"),
   ("dob", PyVal.str "06/15/2013")]

def c4Loc : Location :=
  { id := "L1", name := "Acme Corp", address := none,
    city := some "Springfield", state := some "IL", zip := none }

def c4DB : DB := { persons := [], locations := [c4Loc], reviews := [], nextId := 0 }

def c4Data : List (String × PyVal) :=
  [("organization_name", PyVal.str "Acme Corp"), ("city", PyVal.str "Springfield"),
   ("state", PyVal.str "IL")]

/-! ## Closed theorems on the concrete instances -/

/-- C9: with the assist unavailable, heuristic segmentation of the
quote-style input yields the recipient block "Heather" and a sender block
holding the closing phrase, "James Ostlie", and the phone and email lines. -/
theorem C9_quote_segmentation :
    parse_document_blocks false c9Input =
      .ok (some "Thank you,\nJames Ostlie\n(763) 200-4653\nJames.Ostlie@davey.com",
           some "Heather",
           "...\nThank you,\nJames Ostlie\n(763) 200-4653\nJames.Ostlie@davey.com",
           none) ∧
    pyIn "James Ostlie" "Thank you,\nJames Ostlie\n(763) 200-4653\nJames.Ostlie@davey.com" = true ∧
    pyIn "(763) 200-4653" "Thank you,\nJames Ostlie\n(763) 200-4653\nJames.Ostlie@davey.com" = true ∧
    pyIn "James.Ostlie@davey.com" "Thank you,\nJames Ostlie\n(763) 200-4653\nJames.Ostlie@davey.com" = true := by
  decide

/-- C8: code bug.  `parse_document_blocks` passes two positional arguments to
`parse_document_with_llm`, which accepts one, and unpacks its 3-tuple result
into four names; with the assist enabled the call raises `TypeError`, so the
heuristic fallback never runs and no document-type label is returned. -/
theorem C8_llm_branch_type_error :
    llm_call_raises = true ∧
    ¬ parse_document_with_llm_result_arity = llm_call_unpack_arity ∧
    parse_document_blocks true c9Input =
      .error "TypeError: parse_document_with_llm() takes 2 positional arguments but 3 were given" := by
  decide

/-- C4: code bug.  Exactly one Location row matches the mapping's
name+city+state, yet Step-0 normalization renames `organization_name` to
`name` while the deterministic clause reads the `organization_name` key, so
the deterministic tier returns nothing and resolve queues instead of
returning the row's id. -/
theorem C4_org_name_clause_dead :
    (c4DB.locations.filter (fun l =>
        l.name = "Acme Corp" ∧ l.city = some "Springfield" ∧ l.state = some "IL")).length = 1 ∧
    dictGet (normalize_data c4Data) "organization_name" = (none : Option String) ∧
    match_location_deterministic c4DB (normalize_data c4Data) = none ∧
    (match_location none c4Data "dp1" c4DB).1 = none ∧
    ((match_location none c4Data "dp1" c4DB).2.reviews.map
      (fun r => (r.entity_type, r.query_type, r.status))) =
      [("location", "no_results", "pending")] := by
  decide

/-- C3 counterexample: with the identical mapping carrying an `MM/DD/YYYY`
date of birth, the repeated call does not find the created record at the
deterministic tier — it creates a second Person and returns a different id. -/
theorem C3_counterexample :
    (match_person none c3xData "dp1" emptyDB).1 = some "uuid-0" ∧
    (match_person none c3xData "dp1" (match_person none c3xData "dp1" emptyDB).2).1 =
      some "uuid-1" ∧
    ¬ (some "uuid-1" : Option String) = some "uuid-0" ∧
    (match_person none c3xData "dp1" (match_person none c3xData "dp1" emptyDB).2).2.persons.length = 2 := by
  decide

/-- C1 counterexample: a second resolution of an already-resolved item does
not fail with an invalid-state error — it succeeds and overwrites the stored
entity id, reviewer identity and timestamp of the first resolution. -/
def c1Item' : ReviewQueueItem :=
  { c1Item with
    resolved_entity_id := some "e2"
    reviewed_by := some "bob"
    reviewed_at := some 200 }

theorem C1_counterexample :
    resolve_review c1DB "r1" (some "e2") "bob" false none 200 =
      .ok (some "e2", { c1DB with reviews := [c1Item'] }) := by
  decide

/-- C5 counterexample: a skip resolution (neither an entity id nor a create
request) of a pending item marks it "resolved", not "skipped". -/
def c5Item' : ReviewQueueItem :=
  { c5Item with
    status := "resolved"
    reviewed_by := some "carol"
    reviewed_at := some 300 }

theorem C5_counterexample :
    resolve_review c5DB "r2" none "carol" false none 300 =
      .ok (none, { c5DB with reviews := [c5Item'] }) ∧
    ((resolve_review c5DB "r2" none "carol" false none 300).toOption.map
        (fun p => p.2.reviews.map ReviewQueueItem.status)) = some ["resolved"] := by
  decide

/-! ## Review-resolution theorems (claims C1 and C5) -/

/-- The review item as rewritten by a successful resolution. -/
def resolvedItem (item : ReviewQueueItem) (eid : Option String) (rb : String)
    (now : Nat) : ReviewQueueItem :=
  { item with
    status := "resolved"
    resolved_entity_id := eid
    reviewed_by := some rb
    reviewed_at := some now }

/-- C1 (amended): resolving an item whose status is not "pending" does not
fail — the call succeeds and overwrites the item's resolved entity id,
reviewer identity and resolution timestamp with the second call's values,
re-marking it "resolved" (the source performs no status check). -/
theorem C1_resolve_nonpending_overwrites
    (db : DB) (rid : String) (eid : Option String) (rb : String) (cn : Bool)
    (now : Nat) (item : ReviewQueueItem)
    (hfind : findReview db rid = some item)
    (hstat : ¬ item.status = "pending") :
    resolve_review db rid eid rb cn none now =
      .ok (eid, { db with reviews := db.reviews.map (fun r =>
        if r.id = rid then resolvedItem item eid rb now else r) }) := by
  unfold resolve_review
  rw [hfind]
  simp [truthyDict, resolvedItem]

/-- C1 witness: the overwrite theorem applied at the concrete
already-resolved item `c1Item`. -/
theorem C1_witness :
    resolve_review c1DB "r1" (some "e3") "dave" true none 500 =
      .ok (some "e3", { c1DB with reviews := [resolvedItem c1Item (some "e3") "dave" 500] }) := by
  rw [C1_resolve_nonpending_overwrites c1DB "r1" (some "e3") "dave" true 500 c1Item
    (by decide) (by decide)]
  decide

/-- C5 (amended): for a pending item, a resolution supplying neither an
existing entity id nor a create request succeeds and moves the item's status
to "resolved" — the implementation records skips as resolved and never
writes "skipped" — with no resolved entity id recorded (it stays null). -/
theorem C5_skip_marks_resolved
    (db : DB) (rid rb : String) (now : Nat) (item : ReviewQueueItem)
    (hfind : findReview db rid = some item)
    (hpending : item.status = "pending") :
    resolve_review db rid none rb false none now =
      .ok (none, { db with reviews := db.reviews.map (fun r =>
        if r.id = rid then resolvedItem item none rb now else r) }) := by
  unfold resolve_review
  rw [hfind]
  simp [truthyDict, resolvedItem]

/-- C5 witness: the skip theorem applied at the concrete pending item
`c5Item`. -/
theorem C5_witness :
    resolve_review c5DB "r2" none "erin" false none 400 =
      .ok (none, { c5DB with reviews := [resolvedItem c5Item none "erin" 400] }) := by
  rw [C5_skip_marks_resolved c5DB "r2" "erin" 400 c5Item (by decide) (by decide)]
  decide

/-! ## Location queuing theorem (claim C2) -/

/-- The pending review item created by `_queue_for_review` with an empty
candidate list. -/
def queuedItem (db : DB) (pid entity_type query_type : String)
    (raw : List (String × String)) : ReviewQueueItem :=
  { id := freshId db.nextId
    document_parse_id := pid
    entity_type := entity_type
    query_type := query_type
    candidate_matches := none
    raw_data := raw
    status := "pending"
    resolved_entity_id := none
    reviewed_by := none
    reviewed_at := none }

/-- C2: a Location field mapping with no deterministic match and zero
semantic candidates (in particular whenever the embedding backend is
unavailable) never creates a Location: exactly one pending review item of
entity kind "location" and query kind "no_results" is appended, capturing
the normalized mapping, and the call returns null. -/
theorem C2_location_no_match_queues
    (emb : Option Embedder) (data : List (String × PyVal)) (pid : String) (db : DB)
    (hdet : match_location_deterministic db (normalize_data data) = none)
    (hsem : match_location_semantic emb db (normalize_data data) = []) :
    match_location emb data pid db =
      (none,
       { db with
         reviews := db.reviews ++ [queuedItem db pid "location" "no_results" (normalize_data data)]
         nextId := db.nextId + 1 }) := by
  unfold match_location
  dsimp only
  rw [hdet, hsem]
  simp [queue_for_review, queuedItem]

def c2Data : List (String × PyVal) := [("name", PyVal.str "Acme")]

/-- C2 witness: the queuing theorem applied with the embedding backend
unavailable and a mapping matching nothing. -/
theorem C2_witness :
    match_location none c2Data "dp0" emptyDB =
      (none,
       { emptyDB with
         reviews := [queuedItem emptyDB "dp0" "location" "no_results" [("name", "Acme")]]
         nextId := 1 }) := by
  rw [C2_location_no_match_queues none c2Data "dp0" emptyDB (by decide) (by rfl)]
  decide

/-! ## Deterministic person match theorem (claim C6) -/

/-- The claim's "no birth-date conflict" precondition: the mapping's dob, if
present and truthy, satisfies the dob where-clause against the row. -/
def dobClauseOk (p : Person) : Option String → Bool
  | none => true
  | some s => if s = "" then true else dobColumnEq p.dob s

/-- C6: for a mapping whose given and family names case-insensitively match
exactly one existing Person row, with no birth-date conflict, resolve
returns that row's id with the database unchanged — no creation, no queuing
— and does so for every state of the embedding backend (the semantic tier is
never consulted). -/
theorem C6_person_unique_deterministic
    (emb : Option Embedder) (data : List (String × PyVal)) (pid : String) (db : DB)
    (p : Person) (fn ln : String)
    (hfn : dictGet (normalize_data data) "first_name" = some fn)
    (hln : dictGet (normalize_data data) "last_name" = some ln)
    (hrows : db.persons.filter (fun q =>
        pyLower q.first_name = pyLower fn ∧ pyLower q.last_name = pyLower ln) = [p])
    (hdob : dobClauseOk p (dictGet (normalize_data data) "dob") = true) :
    match_person emb data pid db = (some p.id, db) := by
  have hr : person_det_rows db (normalize_data data) fn ln = [p] := by
    unfold person_det_rows
    cases hd : dictGet (normalize_data data) "dob" with
    | none =>
      dsimp only
      exact hrows
    | some s =>
      rw [hd] at hdob
      dsimp only
      by_cases hse : s = ""
      · subst hse
        rw [if_neg (by simp)]
        exact hrows
      · have hcol : dobColumnEq p.dob s = true := by
          simpa [dobClauseOk, hse] using hdob
        rw [if_pos hse, hrows]
        simp [hcol]
  have hdet : match_person_deterministic db (normalize_data data) = some p := by
    unfold match_person_deterministic
    rw [hfn, hln]
    dsimp only
    rw [hr]
  unfold match_person
  dsimp only
  rw [hdet]

def c6Person : Person :=
  { id := "P1", first_name := "Spencer", last_name := "Kennedy", dob := some ⟨2013, 6, 15⟩ }

def c6DB : DB := { persons := [c6Person], locations := [], reviews := [], nextId := 7 }

def c6Data : List (String × PyVal) :=
  [("first_name", PyVal.str "spencer"), ("last_name", PyVal.str "KENNEDY"),
   ("dob", PyVal.str "2013-06-15")]

/-- C6 witness: the deterministic-match theorem applied at a concrete row
matched case-insensitively with an agreeing birth date. -/
theorem C6_witness :
    match_person none c6Data "dp6" c6DB = (some "P1", c6DB) := by
  have h := C6_person_unique_deterministic none c6Data "dp6" c6DB c6Person
    "spencer" "KENNEDY" (by decide) (by decide) (by decide) (by decide)
  simpa using h

/-! ## Person auto-creation theorems (claims C10 and C3) -/

/-- C10: a person mapping that reaches auto-creation (truthy names, no
deterministic hit, zero semantic candidates) whose dob string parses in
neither `YYYY-MM-DD` nor `MM/DD/YYYY` form still creates the Person and
returns its id, with the stored date of birth absent; nothing is queued and
no error is raised. -/
theorem C10_malformed_dob_created_none
    (emb : Option Embedder) (data : List (String × PyVal)) (pid : String) (db : DB)
    (fn ln s : String)
    (hfn : dictGet (normalize_data data) "first_name" = some fn) (hfne : ¬ fn = "")
    (hln : dictGet (normalize_data data) "last_name" = some ln) (hlne : ¬ ln = "")
    (hdet : match_person_deterministic db (normalize_data data) = none)
    (hsem : match_person_semantic emb db (normalize_data data) = [])
    (hdob : dictGet (normalize_data data) "dob" = some s)
    (hbad : parse_date_str s = none) :
    match_person emb data pid db =
      (some (freshId db.nextId),
       { db with
         persons := db.persons ++
           [{ id := freshId db.nextId
              first_name := fn
              last_name := ln
              dob := none }]
         nextId := db.nextId + 1 }) := by
  unfold match_person
  dsimp only
  rw [hdet]
  dsimp only
  rw [hsem]
  dsimp only
  rw [hfn, hln]
  dsimp only
  rw [if_pos ⟨hfne, hlne⟩, hdob]
  dsimp only [parse_date]
  rw [hbad]

def c10Data : List (String × PyVal) :=
  [("first_name", PyVal.str "John"), ("last_name", PyVal.str "Smith"),
   ("dob", PyVal.str "June 1, 1990")]

/-- C10 witness: the malformed-dob theorem applied at a concrete mapping
with a prose date string and the embedding backend unavailable. -/
theorem C10_witness :
    match_person none c10Data "dp10" emptyDB =
      (some "uuid-0",
       { emptyDB with
         persons := [{ id := "uuid-0"
                       first_name := "John"
                       last_name := "Smith"
                       dob := none }]
         nextId := 1 }) := by
  have h := C10_malformed_dob_created_none none c10Data "dp10" emptyDB
    "John" "Smith" "June 1, 1990" (by decide) (by decide) (by decide) (by decide)
    (by decide) (by rfl) (by decide) (by decide)
  simpa using h

/-- Filtering a singleton that satisfies the predicate keeps it. -/
theorem filter_singleton_true {α : Type} (p : α → Bool) (a : α) (h : p a = true) :
    List.filter p [a] = [a] := by
  simp [List.filter, h]

/-- The amended claim's canonical-dob precondition: the dob entry is absent,
empty, or parses and round-trips through the stored ISO rendering. -/
def dobRoundTrips : Option String → Bool
  | none => true
  | some s =>
    if s = "" then true
    else
      match parse_date_str s with
      | some d => isoDate d = s
      | none => false

/-- C3 (amended): for a person mapping with truthy given and family names,
matched by zero rows at the deterministic tier, with zero semantic
candidates, and whose dob entry is absent, empty, or a canonical zero-padded
`YYYY-MM-DD` string, the first call creates exactly one new Person and
returns its id, and the identical repeated call finds that record at the
deterministic tier and returns the same id with no further creation or
queuing, for every state of the embedding backend on the repeat. -/
theorem C3_create_then_repeat_deterministic
    (emb emb2 : Option Embedder) (data : List (String × PyVal)) (pid pid2 : String)
    (db : DB) (fn ln : String)
    (hfn : dictGet (normalize_data data) "first_name" = some fn) (hfne : ¬ fn = "")
    (hln : dictGet (normalize_data data) "last_name" = some ln) (hlne : ¬ ln = "")
    (hzero : person_det_rows db (normalize_data data) fn ln = [])
    (hsem : match_person_semantic emb db (normalize_data data) = [])
    (hdob : dobRoundTrips (dictGet (normalize_data data) "dob") = true) :
    match_person emb data pid db =
      (some (freshId db.nextId),
       { db with
         persons := db.persons ++
           [{ id := freshId db.nextId
              first_name := fn
              last_name := ln
              dob := parse_date (dictGet (normalize_data data) "dob") }]
         nextId := db.nextId + 1 }) ∧
    match_person emb2 data pid2
      { db with
        persons := db.persons ++
          [{ id := freshId db.nextId
             first_name := fn
             last_name := ln
             dob := parse_date (dictGet (normalize_data data) "dob") }]
        nextId := db.nextId + 1 } =
      (some (freshId db.nextId),
       { db with
         persons := db.persons ++
           [{ id := freshId db.nextId
              first_name := fn
              last_name := ln
              dob := parse_date (dictGet (normalize_data data) "dob") }]
         nextId := db.nextId + 1 }) := by
  set newP : Person :=
    { id := freshId db.nextId
      first_name := fn
      last_name := ln
      dob := parse_date (dictGet (normalize_data data) "dob") } with hnewP
  set db1 : DB :=
    { db with persons := db.persons ++ [newP], nextId := db.nextId + 1 } with hdb1
  have hdet1 : match_person_deterministic db (normalize_data data) = none := by
    unfold match_person_deterministic
    rw [hfn, hln]
    dsimp only
    rw [hzero]
  have hnamePred : (fun q : Person =>
      decide (pyLower q.first_name = pyLower fn ∧ pyLower q.last_name = pyLower ln)) newP
        = true := by
    simp [hnewP]
  have hr2 : person_det_rows db1 (normalize_data data) fn ln = [newP] := by
    unfold person_det_rows at hzero ⊢
    cases hd : dictGet (normalize_data data) "dob" with
    | none =>
      rw [hd] at hzero
      dsimp only at hzero ⊢
      rw [List.filter_append, hzero, filter_singleton_true _ newP hnamePred]
      rfl
    | some s =>
      rw [hd] at hzero hdob
      dsimp only at hzero ⊢
      by_cases hse : s = ""
      · subst hse
        rw [if_neg (by simp)] at hzero ⊢
        rw [List.filter_append, hzero, filter_singleton_true _ newP hnamePred]
        rfl
      · rw [if_pos hse] at hzero ⊢
        have hdob' : (match parse_date_str s with
            | some d => decide (isoDate d = s)
            | none => false) = true := by
          unfold dobRoundTrips at hdob
          dsimp only at hdob
          rwa [if_neg hse] at hdob
        have hcol : dobColumnEq newP.dob s = true := by
          show dobColumnEq (parse_date (dictGet (normalize_data data) "dob")) s = true
          rw [hd]
          dsimp only [parse_date]
          cases hp : parse_date_str s with
          | none =>
            rw [hp] at hdob'
            exact absurd hdob' (by simp)
          | some d =>
            rw [hp] at hdob'
            have hiso : isoDate d = s := of_decide_eq_true hdob'
            simp [dobColumnEq, hiso]
        rw [List.filter_append, filter_singleton_true _ newP hnamePred,
          List.filter_append, hzero, filter_singleton_true _ newP hcol]
        rfl
  have hdet2 : match_person_deterministic db1 (normalize_data data) = some newP := by
    unfold match_person_deterministic
    rw [hfn, hln]
    dsimp only
    rw [hr2]
  constructor
  · unfold match_person
    dsimp only
    rw [hdet1]
    dsimp only
    rw [hsem]
    dsimp only
    rw [hfn, hln]
    dsimp only
    rw [if_pos ⟨hfne, hlne⟩]
  · unfold match_person
    dsimp only
    rw [hdet2]

def c3wData : List (String × PyVal) :=
  [("first_name", PyVal.str "Spencer"), ("last_name", PyVal.str "Kennedy"),
   ("dob", PyVal.str "2013-06-15")]

def c3wDB1 : DB :=
  { persons := [{ id := "uuid-0"
                  first_name := "Spencer"
                  last_name := "Kennedy"
                  dob := some ⟨2013, 6, 15⟩ }]
    locations := []
    reviews := []
    nextId := 1 }

/-- C3 witness: the amended theorem applied at a concrete mapping with a
canonical `YYYY-MM-DD` date of birth on an empty database. -/
theorem C3_witness :
    match_person none c3wData "dp3" emptyDB = (some "uuid-0", c3wDB1) ∧
    match_person none c3wData "dp3" c3wDB1 = (some "uuid-0", c3wDB1) :=
  C3_create_then_repeat_deterministic none none c3wData "dp3" "dp3" emptyDB
    "Spencer" "Kennedy" (by decide) (by decide) (by decide) (by decide)
    (by decide) (by rfl) (by decide)

/-! ## Hallucination-guard theorem (claim C7) -/

/-- `pyInChars` agrees with contiguous-sublist containment. -/
theorem pyInChars_iff {a b : List Char} : pyInChars a b = true ↔ a <:+: b := by
  induction b with
  | nil =>
    simp [pyInChars, List.isEmpty_iff]
  | cons c cs ih =>
    simp [pyInChars, ih, List.infix_cons_iff, List.isPrefixOf_iff_prefix, Bool.or_eq_true]

/-- Substring containment survives deleting characters uniformly from both
sides (an occurrence maps to the filtered occurrence). -/
theorem pyInChars_filter (p : Char → Bool) {a b : List Char}
    (h : pyInChars a b = true) : pyInChars (a.filter p) (b.filter p) = true := by
  rw [pyInChars_iff] at h ⊢
  exact h.filter p

/-- Verbatim containment implies containment after deleting spaces and
hyphens from both sides. -/
theorem pyIn_stripSH_of_verbatim {a b : String} (h : pyIn a b = true) :
    pyIn (stripSpaceHyphen a) (stripSpaceHyphen b) = true :=
  pyInChars_filter (fun c => ¬ c = '-') (pyInChars_filter (fun c => ¬ c = ' ') h)

/-- Space-normalized containment implies containment after also deleting
hyphens from both sides. -/
theorem pyIn_stripSH_of_stripSpace {a b : String}
    (h : pyIn (stripSpace a) (stripSpace b) = true) :
    pyIn (stripSpaceHyphen a) (stripSpaceHyphen b) = true :=
  pyInChars_filter (fun c => ¬ c = '-') h

/-- Writing one key leaves lookups of a different key unchanged. -/
theorem dictGet_dictSet_ne {α : Type} (d : List (String × α)) (k k' : String) (v : α)
    (h : ¬ k = k') : dictGet (dictSet d k v) k' = dictGet d k' := by
  induction d with
  | nil => simp [dictSet, dictGet, h]
  | cons kv rest ih =>
    obtain ⟨k0, v0⟩ := kv
    by_cases h0 : k0 = k
    · subst h0
      simp [dictSet, dictGet, h]
    · simp [dictSet, dictGet, h0, ih]

/-- One validation step never introduces an unsupported zip: if the
accumulator has no zip and the value at a zip key fails the
space/hyphen-normalized containment check, the result still has no zip. -/
theorem validateStep_zip_none (source_lower : String) (acc : List (String × String))
    (k : String) (v? : Option String)
    (hacc : dictGet acc "zip" = none)
    (hv : ∀ v, k = "zip" → v? = some v →
      pyIn (stripSpaceHyphen (pyLower v)) (stripSpaceHyphen source_lower) = false) :
    dictGet (validateStep source_lower acc k v?) "zip" = none := by
  unfold validateStep
  cases v? with
  | none => exact hacc
  | some v =>
    dsimp only
    by_cases hk : k = "zip"
    · subst hk
      have hz := hv v rfl rfl
      have hverb : pyIn (pyLower v) source_lower = false := by
        cases hcase : pyIn (pyLower v) source_lower with
        | false => rfl
        | true => exact absurd (pyIn_stripSH_of_verbatim hcase) (by simp [hz])
      have hsp : pyIn (stripSpace (pyLower v)) (stripSpace source_lower) = false := by
        cases hcase : pyIn (stripSpace (pyLower v)) (stripSpace source_lower) with
        | false => rfl
        | true => exact absurd (pyIn_stripSH_of_stripSpace hcase) (by simp [hz])
      simp [addrKeys, hz, hverb, hsp, hacc]
    · have hset : dictGet (dictSet acc k v) "zip" = none := by
        rw [dictGet_dictSet_ne acc k "zip" v hk]
        exact hacc
      split
      · split
        · exact hset
        · split
          · exact hset
          · exact hacc
      · split
        · split
          · exact hset
          · exact hacc
        · exact hset

/-- The validation fold never emits an unsupported zip. -/
theorem validate_fold_zip_none (source_lower : String) :
    ∀ (result : List (String × Option String)) (acc : List (String × String)),
      (∀ v, ("zip", some v) ∈ result →
        pyIn (stripSpaceHyphen (pyLower v)) (stripSpaceHyphen source_lower) = false) →
      dictGet acc "zip" = none →
      dictGet (result.foldl
        (fun validated kv => validateStep source_lower validated kv.1 kv.2) acc) "zip" = none := by
  intro result
  induction result with
  | nil =>
    intro acc _ hacc
    simpa using hacc
  | cons kv rest ih =>
    intro acc hv hacc
    obtain ⟨k, v?⟩ := kv
    rw [List.foldl_cons]
    apply ih
    · intro v hvm
      exact hv v (List.mem_cons_of_mem _ hvm)
    · apply validateStep_zip_none _ _ _ _ hacc
      intro v hkz hvz
      subst hkz
      subst hvz
      exact hv v (List.mem_cons_self _ _)

/-- C7: an assist-suggested zip value that does not occur in the source block
even after stripping spaces and hyphens from both sides is dropped from the
validated mapping (unsupported values are dropped, never an error — the
validation is a total function). -/
theorem C7_zip_hallucination_dropped
    (result : List (String × Option String)) (source_text : String)
    (h : ∀ v, ("zip", some v) ∈ result →
      pyIn (stripSpaceHyphen (pyLower v)) (stripSpaceHyphen (pyLower source_text)) = false) :
    dictGet (validate_extraction result source_text) "zip" = none := by
  unfold validate_extraction
  exact validate_fold_zip_none (pyLower source_text) result [] h rfl

/-- C7 witness: the guard theorem applied at a concrete extraction whose zip
"99999" appears nowhere in the source block. -/
theorem C7_witness :
    dictGet (validate_extraction [("zip", some "99999"), ("city", some "Springfield")]
      "Springfield office, 123 Main St") "zip" = none := by
  apply C7_zip_hallucination_dropped
  intro v hv
  simp only [List.mem_cons, List.not_mem_nil, or_false, Prod.mk.injEq] at hv
  rcases hv with ⟨-, hv⟩ | ⟨hbad, -⟩
  · cases hv
    decide
  · exact absurd hbad (by decide)
